import Mathlib

/-!
Verification of the THREE.Fire volumetric fire effect (repository typeWolffo/THREE.Fire).

The development shallowly embeds the parameter/uniform model, the per-frame update
protocol and the three shader pipelines of the repository:

* the GLSL backend: `src/Fire.ts` and `src/FireShader.ts`;
* the TSL backend: `src/tsl/FireTSL.ts` and `FireShaderTSL.ts` (createFireUniforms,
  createTurbulence, createSamplerFire, createFireFragmentNode);
* the node backend: `NodeFire.ts` and `NodeFireShader.ts` (fireNode, createMaterial).

Shader arithmetic is embedded over the rationals.  The GPU square root, the noise
kernels (ashima simplex noise, mx_noise_float, triNoise3D) and the texture lookup are
external to the repository and are taken as explicit function parameters of the
embedded shader code.
-/

namespace ThreeFire

/-- 2-component vector of rationals (GLSL vec2). -/
structure Vec2 where
  x : ℚ
  y : ℚ
deriving DecidableEq, Repr

/-- 3-component vector of rationals (GLSL vec3 / three.js Vector3). -/
structure Vec3 where
  x : ℚ
  y : ℚ
  z : ℚ
deriving DecidableEq, Repr

/-- 4-component vector of rationals (GLSL vec4 / three.js Vector4). -/
structure Vec4 where
  x : ℚ
  y : ℚ
  z : ℚ
  w : ℚ
deriving DecidableEq, Repr

instance : Add Vec3 where
  add a b := ⟨a.x + b.x, a.y + b.y, a.z + b.z⟩

instance : Sub Vec3 where
  sub a b := ⟨a.x - b.x, a.y - b.y, a.z - b.z⟩

/-- Scalar multiple of a `Vec3` (GLSL `v * c`). -/
def v3smul (c : ℚ) (v : Vec3) : Vec3 := ⟨c * v.x, c * v.y, c * v.z⟩

/-- Componentwise dot product of a `Vec3` with itself uses `dot3`. -/
def dot3 (a b : Vec3) : ℚ := a.x * b.x + a.y * b.y + a.z * b.z

/-- GLSL `dot(p.xz, p.xz)`: squared radial distance of a `Vec3` from the y axis. -/
def dotXZ (p : Vec3) : ℚ := p.x * p.x + p.z * p.z

/-- The zero vec4, GLSL `vec4(0.0)`. -/
def v4zero : Vec4 := ⟨0, 0, 0, 0⟩

instance : Zero Vec4 := ⟨v4zero⟩

/-- Componentwise addition of vec4 values. -/
def v4add (a b : Vec4) : Vec4 := ⟨a.x + b.x, a.y + b.y, a.z + b.z, a.w + b.w⟩

instance : Add Vec4 := ⟨v4add⟩

theorem v4ext {a b : Vec4} (hx : a.x = b.x) (hy : a.y = b.y) (hz : a.z = b.z)
    (hw : a.w = b.w) : a = b := by
  cases a; cases b; simp_all

@[simp] theorem v4add_x (a b : Vec4) : (a + b).x = a.x + b.x := rfl

@[simp] theorem v4add_y (a b : Vec4) : (a + b).y = a.y + b.y := rfl

@[simp] theorem v4add_z (a b : Vec4) : (a + b).z = a.z + b.z := rfl

@[simp] theorem v4add_w (a b : Vec4) : (a + b).w = a.w + b.w := rfl

@[simp] theorem v4zero_x : (0 : Vec4).x = 0 := rfl

@[simp] theorem v4zero_y : (0 : Vec4).y = 0 := rfl

@[simp] theorem v4zero_z : (0 : Vec4).z = 0 := rfl

@[simp] theorem v4zero_w : (0 : Vec4).w = 0 := rfl

instance : AddCommMonoid Vec4 where
  add_assoc a b c := v4ext (by simp; ring) (by simp; ring) (by simp; ring) (by simp; ring)
  zero_add a := v4ext (by simp) (by simp) (by simp) (by simp)
  add_zero a := v4ext (by simp) (by simp) (by simp) (by simp)
  add_comm a b := v4ext (by simp; ring) (by simp; ring) (by simp; ring) (by simp; ring)
  nsmul := nsmulRec

/-- 4x4 matrix of rationals (three.js Matrix4).  Field `nij` is the entry at row `i`,
column `j`, matching the local names used inside three.js `Matrix4.invert`
(`n11 = elements[0]`, `n21 = elements[1]`, ..., column-major storage). -/
@[ext] structure Mat4 where
  n11 : ℚ
  n21 : ℚ
  n31 : ℚ
  n41 : ℚ
  n12 : ℚ
  n22 : ℚ
  n32 : ℚ
  n42 : ℚ
  n13 : ℚ
  n23 : ℚ
  n33 : ℚ
  n43 : ℚ
  n14 : ℚ
  n24 : ℚ
  n34 : ℚ
  n44 : ℚ
deriving DecidableEq, Repr

/-- The identity matrix (`new Matrix4()` in three.js). -/
def m4id : Mat4 :=
  ⟨1, 0, 0, 0, 0, 1, 0, 0, 0, 0, 1, 0, 0, 0, 0, 1⟩

/-- The all-zero matrix, produced by three.js `Matrix4.invert` on a singular input. -/
def m4zero : Mat4 :=
  ⟨0, 0, 0, 0, 0, 0, 0, 0, 0, 0, 0, 0, 0, 0, 0, 0⟩

/-- Matrix product, `(A.mul B).nij = sum over k of A.nik * B.nkj`. -/
def m4mul (A B : Mat4) : Mat4 where
  n11 := A.n11 * B.n11 + A.n12 * B.n21 + A.n13 * B.n31 + A.n14 * B.n41
  n21 := A.n21 * B.n11 + A.n22 * B.n21 + A.n23 * B.n31 + A.n24 * B.n41
  n31 := A.n31 * B.n11 + A.n32 * B.n21 + A.n33 * B.n31 + A.n34 * B.n41
  n41 := A.n41 * B.n11 + A.n42 * B.n21 + A.n43 * B.n31 + A.n44 * B.n41
  n12 := A.n11 * B.n12 + A.n12 * B.n22 + A.n13 * B.n32 + A.n14 * B.n42
  n22 := A.n21 * B.n12 + A.n22 * B.n22 + A.n23 * B.n32 + A.n24 * B.n42
  n32 := A.n31 * B.n12 + A.n32 * B.n22 + A.n33 * B.n32 + A.n34 * B.n42
  n42 := A.n41 * B.n12 + A.n42 * B.n22 + A.n43 * B.n32 + A.n44 * B.n42
  n13 := A.n11 * B.n13 + A.n12 * B.n23 + A.n13 * B.n33 + A.n14 * B.n43
  n23 := A.n21 * B.n13 + A.n22 * B.n23 + A.n23 * B.n33 + A.n24 * B.n43
  n33 := A.n31 * B.n13 + A.n32 * B.n23 + A.n33 * B.n33 + A.n34 * B.n43
  n43 := A.n41 * B.n13 + A.n42 * B.n23 + A.n43 * B.n33 + A.n44 * B.n43
  n14 := A.n11 * B.n14 + A.n12 * B.n24 + A.n13 * B.n34 + A.n14 * B.n44
  n24 := A.n21 * B.n14 + A.n22 * B.n24 + A.n23 * B.n34 + A.n24 * B.n44
  n34 := A.n31 * B.n14 + A.n32 * B.n24 + A.n33 * B.n34 + A.n34 * B.n44
  n44 := A.n41 * B.n14 + A.n42 * B.n24 + A.n43 * B.n34 + A.n44 * B.n44

/-- Determinant of a `Mat4`, computed exactly as the `det` local of three.js
`Matrix4.invert` (first-column cofactor expansion with the `t11 .. t14` locals). -/
def m4det (A : Mat4) : ℚ :=
  A.n11 * (A.n23 * A.n34 * A.n42 - A.n24 * A.n33 * A.n42 + A.n24 * A.n32 * A.n43
            - A.n22 * A.n34 * A.n43 - A.n23 * A.n32 * A.n44 + A.n22 * A.n33 * A.n44)
  + A.n21 * (A.n14 * A.n33 * A.n42 - A.n13 * A.n34 * A.n42 - A.n14 * A.n32 * A.n43
            + A.n12 * A.n34 * A.n43 + A.n13 * A.n32 * A.n44 - A.n12 * A.n33 * A.n44)
  + A.n31 * (A.n13 * A.n24 * A.n42 - A.n14 * A.n23 * A.n42 + A.n14 * A.n22 * A.n43
            - A.n12 * A.n24 * A.n43 - A.n13 * A.n22 * A.n44 + A.n12 * A.n23 * A.n44)
  + A.n41 * (A.n14 * A.n23 * A.n32 - A.n13 * A.n24 * A.n32 - A.n14 * A.n22 * A.n33
            + A.n12 * A.n24 * A.n33 + A.n13 * A.n22 * A.n34 - A.n12 * A.n23 * A.n34)

/-- three.js `Matrix4.invert`: adjugate over determinant, and the all-zero matrix when
the determinant vanishes.  Entry formulas transcribed from three.js. -/
def m4invert (A : Mat4) : Mat4 :=
  if m4det A = 0 then m4zero else
  { n11 := (A.n23 * A.n34 * A.n42 - A.n24 * A.n33 * A.n42 + A.n24 * A.n32 * A.n43
            - A.n22 * A.n34 * A.n43 - A.n23 * A.n32 * A.n44 + A.n22 * A.n33 * A.n44) / m4det A
    n21 := (A.n24 * A.n33 * A.n41 - A.n23 * A.n34 * A.n41 - A.n24 * A.n31 * A.n43
            + A.n21 * A.n34 * A.n43 + A.n23 * A.n31 * A.n44 - A.n21 * A.n33 * A.n44) / m4det A
    n31 := (A.n22 * A.n34 * A.n41 - A.n24 * A.n32 * A.n41 + A.n24 * A.n31 * A.n42
            - A.n21 * A.n34 * A.n42 - A.n22 * A.n31 * A.n44 + A.n21 * A.n32 * A.n44) / m4det A
    n41 := (A.n23 * A.n32 * A.n41 - A.n22 * A.n33 * A.n41 - A.n23 * A.n31 * A.n42
            + A.n21 * A.n33 * A.n42 + A.n22 * A.n31 * A.n43 - A.n21 * A.n32 * A.n43) / m4det A
    n12 := (A.n14 * A.n33 * A.n42 - A.n13 * A.n34 * A.n42 - A.n14 * A.n32 * A.n43
            + A.n12 * A.n34 * A.n43 + A.n13 * A.n32 * A.n44 - A.n12 * A.n33 * A.n44) / m4det A
    n22 := (A.n13 * A.n34 * A.n41 - A.n14 * A.n33 * A.n41 + A.n14 * A.n31 * A.n43
            - A.n11 * A.n34 * A.n43 - A.n13 * A.n31 * A.n44 + A.n11 * A.n33 * A.n44) / m4det A
    n32 := (A.n14 * A.n32 * A.n41 - A.n12 * A.n34 * A.n41 - A.n14 * A.n31 * A.n42
            + A.n11 * A.n34 * A.n42 + A.n12 * A.n31 * A.n44 - A.n11 * A.n32 * A.n44) / m4det A
    n42 := (A.n12 * A.n33 * A.n41 - A.n13 * A.n32 * A.n41 + A.n13 * A.n31 * A.n42
            - A.n11 * A.n33 * A.n42 - A.n12 * A.n31 * A.n43 + A.n11 * A.n32 * A.n43) / m4det A
    n13 := (A.n13 * A.n24 * A.n42 - A.n14 * A.n23 * A.n42 + A.n14 * A.n22 * A.n43
            - A.n12 * A.n24 * A.n43 - A.n13 * A.n22 * A.n44 + A.n12 * A.n23 * A.n44) / m4det A
    n23 := (A.n14 * A.n23 * A.n41 - A.n13 * A.n24 * A.n41 - A.n14 * A.n21 * A.n43
            + A.n11 * A.n24 * A.n43 + A.n13 * A.n21 * A.n44 - A.n11 * A.n23 * A.n44) / m4det A
    n33 := (A.n12 * A.n24 * A.n41 - A.n14 * A.n22 * A.n41 + A.n14 * A.n21 * A.n42
            - A.n11 * A.n24 * A.n42 - A.n12 * A.n21 * A.n44 + A.n11 * A.n22 * A.n44) / m4det A
    n43 := (A.n13 * A.n22 * A.n41 - A.n12 * A.n23 * A.n41 - A.n13 * A.n21 * A.n42
            + A.n11 * A.n23 * A.n42 + A.n12 * A.n21 * A.n43 - A.n11 * A.n22 * A.n43) / m4det A
    n14 := (A.n14 * A.n23 * A.n32 - A.n13 * A.n24 * A.n32 - A.n14 * A.n22 * A.n33
            + A.n12 * A.n24 * A.n33 + A.n13 * A.n22 * A.n34 - A.n12 * A.n23 * A.n34) / m4det A
    n24 := (A.n13 * A.n24 * A.n31 - A.n14 * A.n23 * A.n31 + A.n14 * A.n21 * A.n33
            - A.n11 * A.n24 * A.n33 - A.n13 * A.n21 * A.n34 + A.n11 * A.n23 * A.n34) / m4det A
    n34 := (A.n14 * A.n22 * A.n31 - A.n12 * A.n24 * A.n31 - A.n14 * A.n21 * A.n32
            + A.n11 * A.n24 * A.n32 + A.n12 * A.n21 * A.n34 - A.n11 * A.n22 * A.n34) / m4det A
    n44 := (A.n12 * A.n23 * A.n31 - A.n13 * A.n22 * A.n31 + A.n13 * A.n21 * A.n32
            - A.n11 * A.n23 * A.n32 - A.n12 * A.n21 * A.n33 + A.n11 * A.n22 * A.n33) / m4det A }

set_option maxHeartbeats 2000000 in
/-- On a nonsingular matrix, the three.js invert routine produces a left inverse:
`invert(A) * A` is the identity. -/
theorem m4invert_mul_self (A : Mat4) (h : m4det A ≠ 0) :
    m4mul (m4invert A) A = m4id := by
  unfold m4invert
  rw [if_neg h]
  apply Mat4.ext <;>
    · dsimp only [m4mul, m4id]
      rw [div_mul_eq_mul_div, div_mul_eq_mul_div, div_mul_eq_mul_div, div_mul_eq_mul_div,
        div_add_div_same, div_add_div_same, div_add_div_same, div_eq_iff h]
      simp only [m4det]
      ring

set_option maxHeartbeats 2000000 in
/-- On a nonsingular matrix, the three.js invert routine produces a right inverse:
`A * invert(A)` is the identity. -/
theorem m4mul_invert_self (A : Mat4) (h : m4det A ≠ 0) :
    m4mul A (m4invert A) = m4id := by
  unfold m4invert
  rw [if_neg h]
  apply Mat4.ext <;>
    · dsimp only [m4mul, m4id]
      rw [← mul_div_assoc, ← mul_div_assoc, ← mul_div_assoc, ← mul_div_assoc,
        div_add_div_same, div_add_div_same, div_add_div_same, div_eq_iff h]
      simp only [m4det]
      ring

/-- three.js texture filter constants used by the repository. -/
inductive TexFilter where
  | linear
  | nearest
deriving DecidableEq, Repr

/-- three.js texture wrap-mode constants used by the repository. -/
inductive TexWrap where
  | clampToEdge
  | repeatWrapping
  | mirroredRepeat
deriving DecidableEq, Repr

/-- A 2D texture resource: an opaque image identity plus the filter and wrap
configuration that the repository mutates. -/
structure Texture where
  image : ℕ
  magFilter : TexFilter
  minFilter : TexFilter
  wrapS : TexWrap
  wrapT : TexWrap
deriving DecidableEq, Repr

/-- The texture configuration applied by the Fire and NodeFire constructors, the
NodeFire texture setter and createFireUniforms:
`magFilter = minFilter = LinearFilter`, `wrapS = wrapT = ClampToEdgeWrapping`. -/
def configureTexture (t : Texture) : Texture :=
  { t with
    magFilter := TexFilter.linear
    minFilter := TexFilter.linear
    wrapS := TexWrap.clampToEdge
    wrapT := TexWrap.clampToEdge }

/-- A three.js Color value.  The three.js Color class is external to the repository,
so a color is modelled by how it was constructed (hex integer, CSS-style name, or
explicit rgb components). -/
inductive ColorVal where
  | ofHex (n : ℕ)
  | ofName (s : String)
  | ofRGB (r g b : ℚ)
deriving DecidableEq, Repr

/-- The `Color | string | number` union accepted by the color properties. -/
inductive ColorInput where
  | fromColor (c : ColorVal)
  | fromHex (n : ℕ)
  | fromName (s : String)
deriving DecidableEq, Repr

/-- `color instanceof Color ? color : new Color(color)`: a Color instance is kept,
other representations are normalized through the Color constructor. -/
def mkColor : ColorInput → ColorVal
  | ColorInput.fromColor c => c
  | ColorInput.fromHex n => ColorVal.ofHex n
  | ColorInput.fromName s => ColorVal.ofName s

/-- A three.js quaternion (rotation part of a scene node). -/
structure Quat where
  x : ℚ
  y : ℚ
  z : ℚ
  w : ℚ
deriving DecidableEq, Repr

/-- The identity quaternion. -/
def quatId : Quat := ⟨0, 0, 0, 1⟩

/-- three.js `Matrix4.compose(position, quaternion, scale)`: builds the local matrix
from the TRS data of a node, transcribed from three.js (column-major `te` layout). -/
def m4compose (position : Vec3) (q : Quat) (scale : Vec3) : Mat4 :=
  let x2 := q.x + q.x
  let y2 := q.y + q.y
  let z2 := q.z + q.z
  let xx := q.x * x2
  let xy := q.x * y2
  let xz := q.x * z2
  let yy := q.y * y2
  let yz := q.y * z2
  let zz := q.z * z2
  let wx := q.w * x2
  let wy := q.w * y2
  let wz := q.w * z2
  { n11 := (1 - (yy + zz)) * scale.x
    n21 := (xy + wz) * scale.x
    n31 := (xz - wy) * scale.x
    n41 := 0
    n12 := (xy - wz) * scale.y
    n22 := (1 - (xx + zz)) * scale.y
    n32 := (yz + wx) * scale.y
    n42 := 0
    n13 := (xz + wy) * scale.z
    n23 := (yz - wx) * scale.z
    n33 := (1 - (xx + yy)) * scale.z
    n43 := 0
    n14 := position.x
    n24 := position.y
    n34 := position.z
    n44 := 1 }

/-- The scene-graph state of a mesh that the update protocol reads: TRS components
plus the cached world matrix.  The fire meshes are modelled without a parent, so
`updateMatrixWorld` sets `matrixWorld` to the composed local matrix. -/
structure MeshState where
  position : Vec3
  quaternion : Quat
  scale : Vec3
  matrixWorld : Mat4
deriving DecidableEq, Repr

/-- three.js `Object3D.updateMatrixWorld` for a parentless, auto-updating mesh:
recompose the local matrix from position/quaternion/scale and copy it into
`matrixWorld`. -/
def updMatrixWorld (m : MeshState) : MeshState :=
  { m with matrixWorld := m4compose m.position m.quaternion m.scale }

/-- The uniform record of the GLSL backend (`FireShaderUniforms` of `FireShader.ts`,
as instantiated by the `Fire` class) and of the TSL backend (`FireTSLUniforms` of
`FireShaderTSL.ts`): both carry exactly these ten uniforms. -/
structure FireUniforms where
  fireTex : Texture
  color : ColorVal
  time : ℚ
  seed : ℚ
  invModelMatrix : Mat4
  scale : Vec3
  noiseScale : Vec4
  magnitude : ℚ
  lacunarity : ℚ
  gain : ℚ
deriving DecidableEq, Repr

/-- Constructor options of the `Fire` class (`FireProps` in `Fire.ts`); `none` marks
an omitted optional property. -/
structure FireProps where
  fireTex : Texture
  color : Option ColorInput
  iterations : Option ℕ
  octaves : Option ℕ
  noiseScale : Option Vec4
  magnitude : Option ℚ
  lacunarity : Option ℚ
  gain : Option ℚ
deriving DecidableEq, Repr

/-- The state of a `Fire` (GLSL backend) instance: the mesh transform data, the
private `_time` field, the shader uniforms, and the compile-time `ITERATIONS` /
`OCTAVES` defines baked into the material. -/
structure FireState where
  mesh : MeshState
  timeProp : ℚ
  uniforms : FireUniforms
  iterations : ℕ
  octaves : ℕ
deriving DecidableEq, Repr

namespace Fire

/-- The `Fire` constructor (`Fire.ts`).  `rand` is the value drawn from
`Math.random()` for the seed; the mesh starts with the identity transform of a fresh
`Object3D`.  The constructor also reconfigures the texture filters and wrap modes. -/
def construct (props : FireProps) (rand : ℚ) : FireState :=
  { mesh :=
      { position := ⟨0, 0, 0⟩
        quaternion := quatId
        scale := ⟨1, 1, 1⟩
        matrixWorld := m4id }
    timeProp := 0
    uniforms :=
      { fireTex := configureTexture props.fireTex
        color := mkColor (props.color.getD (ColorInput.fromHex 0xeeeeee))
        time := 0
        seed := rand * (1919 / 100)
        invModelMatrix := m4id
        scale := ⟨1, 1, 1⟩
        noiseScale := props.noiseScale.getD ⟨1, 2, 1, 3 / 10⟩
        magnitude := props.magnitude.getD (13 / 10)
        lacunarity := props.lacunarity.getD 2
        gain := props.gain.getD (1 / 2) }
    iterations := props.iterations.getD 20
    octaves := props.octaves.getD 3 }

/-- `Fire.update(time?)`: store a supplied time into `_time` and the time uniform,
then recompute the world matrix, invert it into `invModelMatrix` and copy the mesh
scale into the scale uniform. -/
def update (s : FireState) (t : Option ℚ) : FireState :=
  let s1 :=
    match t with
    | some v => { s with timeProp := v, uniforms := { s.uniforms with time := v } }
    | none => s
  let mesh1 := updMatrixWorld s1.mesh
  { s1 with
    mesh := mesh1
    uniforms :=
      { s1.uniforms with
        invModelMatrix := m4invert mesh1.matrixWorld
        scale := mesh1.scale } }

/-- Getter `Fire.time`. -/
def getTime (s : FireState) : ℚ := s.timeProp

/-- Setter `Fire.time`. -/
def setTime (s : FireState) (v : ℚ) : FireState :=
  { s with timeProp := v, uniforms := { s.uniforms with time := v } }

/-- Getter `Fire.fireColor`. -/
def getFireColor (s : FireState) : ColorVal := s.uniforms.color

/-- Setter `Fire.fireColor`. -/
def setFireColor (s : FireState) (c : ColorInput) : FireState :=
  { s with uniforms := { s.uniforms with color := mkColor c } }

/-- Getter `Fire.magnitude`. -/
def getMagnitude (s : FireState) : ℚ := s.uniforms.magnitude

/-- Setter `Fire.magnitude`. -/
def setMagnitude (s : FireState) (v : ℚ) : FireState :=
  { s with uniforms := { s.uniforms with magnitude := v } }

/-- Getter `Fire.lacunarity`. -/
def getLacunarity (s : FireState) : ℚ := s.uniforms.lacunarity

/-- Setter `Fire.lacunarity`. -/
def setLacunarity (s : FireState) (v : ℚ) : FireState :=
  { s with uniforms := { s.uniforms with lacunarity := v } }

/-- Getter `Fire.gain`. -/
def getGain (s : FireState) : ℚ := s.uniforms.gain

/-- Setter `Fire.gain`. -/
def setGain (s : FireState) (v : ℚ) : FireState :=
  { s with uniforms := { s.uniforms with gain := v } }

end Fire

/-- Constructor options of `createFireUniforms` (`FireTSLConfig` in
`FireShaderTSL.ts`); its `color` field accepts `Color | number`. -/
structure FireTSLConfig where
  fireTex : Texture
  color : Option ColorInput
  noiseScale : Option Vec4
  magnitude : Option ℚ
  lacunarity : Option ℚ
  gain : Option ℚ
deriving DecidableEq, Repr

/-- `createFireUniforms` (`FireShaderTSL.ts`): builds the TSL uniform record with
defaults, reconfiguring the texture filters and wrap modes.  `rand` is the
`Math.random()` draw for the seed. -/
def createFireUniforms (config : FireTSLConfig) (rand : ℚ) : FireUniforms :=
  { fireTex := configureTexture config.fireTex
    color := mkColor (config.color.getD (ColorInput.fromHex 0xeeeeee))
    time := 0
    seed := rand * (1919 / 100)
    invModelMatrix := m4id
    scale := ⟨1, 1, 1⟩
    noiseScale := config.noiseScale.getD ⟨1, 2, 1, 3 / 10⟩
    magnitude := config.magnitude.getD (13 / 10)
    lacunarity := config.lacunarity.getD 2
    gain := config.gain.getD (1 / 2) }

/-- The state of a `FireTSL` instance (`FireTSL.ts`): mesh data, private `_time`,
the uniform record from `createFireUniforms`, and the iteration count baked into the
fragment node (octaves are fixed at 3 by `turbulence3`). -/
structure FireTSLState where
  mesh : MeshState
  timeProp : ℚ
  uniforms : FireUniforms
  iterations : ℕ
deriving DecidableEq, Repr

namespace FireTSL

/-- The `FireTSL` constructor: defaults mirror the GLSL class, octaves are fixed at
3 and not a constructor parameter. -/
def construct (props : FireProps) (rand : ℚ) : FireTSLState :=
  { mesh :=
      { position := ⟨0, 0, 0⟩
        quaternion := quatId
        scale := ⟨1, 1, 1⟩
        matrixWorld := m4id }
    timeProp := 0
    uniforms :=
      createFireUniforms
        { fireTex := props.fireTex
          color := props.color
          noiseScale := props.noiseScale
          magnitude := props.magnitude
          lacunarity := props.lacunarity
          gain := props.gain } rand
    iterations := props.iterations.getD 20 }

/-- `FireTSL.update(time?)`: identical protocol to `Fire.update`. -/
def update (s : FireTSLState) (t : Option ℚ) : FireTSLState :=
  let s1 :=
    match t with
    | some v => { s with timeProp := v, uniforms := { s.uniforms with time := v } }
    | none => s
  let mesh1 := updMatrixWorld s1.mesh
  { s1 with
    mesh := mesh1
    uniforms :=
      { s1.uniforms with
        invModelMatrix := m4invert mesh1.matrixWorld
        scale := mesh1.scale } }

/-- Getter `FireTSL.time`. -/
def getTime (s : FireTSLState) : ℚ := s.timeProp

/-- Setter `FireTSL.time`. -/
def setTime (s : FireTSLState) (v : ℚ) : FireTSLState :=
  { s with timeProp := v, uniforms := { s.uniforms with time := v } }

/-- Getter `FireTSL.fireColor`. -/
def getFireColor (s : FireTSLState) : ColorVal := s.uniforms.color

/-- Setter `FireTSL.fireColor`. -/
def setFireColor (s : FireTSLState) (c : ColorInput) : FireTSLState :=
  { s with uniforms := { s.uniforms with color := mkColor c } }

/-- Getter `FireTSL.magnitude`. -/
def getMagnitude (s : FireTSLState) : ℚ := s.uniforms.magnitude

/-- Setter `FireTSL.magnitude`. -/
def setMagnitude (s : FireTSLState) (v : ℚ) : FireTSLState :=
  { s with uniforms := { s.uniforms with magnitude := v } }

/-- Getter `FireTSL.lacunarity`. -/
def getLacunarity (s : FireTSLState) : ℚ := s.uniforms.lacunarity

/-- Setter `FireTSL.lacunarity`. -/
def setLacunarity (s : FireTSLState) (v : ℚ) : FireTSLState :=
  { s with uniforms := { s.uniforms with lacunarity := v } }

/-- Getter `FireTSL.gain`. -/
def getGain (s : FireTSLState) : ℚ := s.uniforms.gain

/-- Setter `FireTSL.gain`. -/
def setGain (s : FireTSLState) (v : ℚ) : FireTSLState :=
  { s with uniforms := { s.uniforms with gain := v } }

end FireTSL

/-- The plain uniform record of the node backend (`NodeFireShaderUniforms` in
`NodeFireShader.ts`).  Unlike the other two backends it has no `invModelMatrix` and
no `scale` entry; it stores the iteration and octave counts instead. -/
structure NodeFireUniforms where
  fireTex : Option Texture
  color : ColorVal
  time : ℚ
  seed : ℚ
  noiseScale : Vec4
  magnitude : ℚ
  lacunarity : ℚ
  gain : ℚ
  iterations : ℕ
  octaves : ℕ
deriving DecidableEq, Repr

/-- The state of a `NodeFire` instance (`NodeFire.ts`): mesh data, private `_time`
and the `_uniforms` record. -/
structure NodeFireState where
  mesh : MeshState
  timeProp : ℚ
  uniforms : NodeFireUniforms
deriving DecidableEq, Repr

namespace NodeFire

/-- The `NodeFire` constructor (`NodeFire.ts`): builds the `_uniforms` record with
defaults and reconfigures the texture. -/
def construct (props : FireProps) (rand : ℚ) : NodeFireState :=
  { mesh :=
      { position := ⟨0, 0, 0⟩
        quaternion := quatId
        scale := ⟨1, 1, 1⟩
        matrixWorld := m4id }
    timeProp := 0
    uniforms :=
      { fireTex := some (configureTexture props.fireTex)
        color := mkColor (props.color.getD (ColorInput.fromHex 0xeeeeee))
        time := 0
        seed := rand * (1919 / 100)
        noiseScale := props.noiseScale.getD ⟨1, 2, 1, 3 / 10⟩
        magnitude := props.magnitude.getD (13 / 10)
        lacunarity := props.lacunarity.getD 2
        gain := props.gain.getD (1 / 2)
        iterations := props.iterations.getD 20
        octaves := props.octaves.getD 3 } }

/-- `NodeFire.update(time?)`: store a supplied time into `_time` and
`_uniforms.time`, then call `updateMatrixWorld()`.  No other field is assigned. -/
def update (s : NodeFireState) (t : Option ℚ) : NodeFireState :=
  let s1 :=
    match t with
    | some v => { s with timeProp := v, uniforms := { s.uniforms with time := v } }
    | none => s
  { s1 with mesh := updMatrixWorld s1.mesh }

/-- Getter `NodeFire.time`. -/
def getTime (s : NodeFireState) : ℚ := s.timeProp

/-- Setter `NodeFire.time`. -/
def setTime (s : NodeFireState) (v : ℚ) : NodeFireState :=
  { s with timeProp := v, uniforms := { s.uniforms with time := v } }

/-- Getter `NodeFire.fireColor`. -/
def getFireColor (s : NodeFireState) : ColorVal := s.uniforms.color

/-- Setter `NodeFire.fireColor`. -/
def setFireColor (s : NodeFireState) (c : ColorInput) : NodeFireState :=
  { s with uniforms := { s.uniforms with color := mkColor c } }

/-- Getter `NodeFire.magnitude`. -/
def getMagnitude (s : NodeFireState) : ℚ := s.uniforms.magnitude

/-- Setter `NodeFire.magnitude`. -/
def setMagnitude (s : NodeFireState) (v : ℚ) : NodeFireState :=
  { s with uniforms := { s.uniforms with magnitude := v } }

/-- Getter `NodeFire.lacunarity`. -/
def getLacunarity (s : NodeFireState) : ℚ := s.uniforms.lacunarity

/-- Setter `NodeFire.lacunarity`. -/
def setLacunarity (s : NodeFireState) (v : ℚ) : NodeFireState :=
  { s with uniforms := { s.uniforms with lacunarity := v } }

/-- Getter `NodeFire.gain`. -/
def getGain (s : NodeFireState) : ℚ := s.uniforms.gain

/-- Setter `NodeFire.gain`. -/
def setGain (s : NodeFireState) (v : ℚ) : NodeFireState :=
  { s with uniforms := { s.uniforms with gain := v } }

/-- Getter `NodeFire.fireTex`. -/
def getFireTex (s : NodeFireState) : Option Texture := s.uniforms.fireTex

/-- Setter `NodeFire.fireTex`: stores the texture and, when non-null, reconfigures
its filters and wrap modes (the stored reference is the reconfigured object). -/
def setFireTex (s : NodeFireState) (t : Option Texture) : NodeFireState :=
  { s with
    uniforms :=
      { s.uniforms with
        fireTex :=
          match t with
          | some tx => some (configureTexture tx)
          | none => none } }

/-- Getter `NodeFire.noiseScale`. -/
def getNoiseScale (s : NodeFireState) : Vec4 := s.uniforms.noiseScale

/-- Setter `NodeFire.noiseScale`. -/
def setNoiseScale (s : NodeFireState) (v : Vec4) : NodeFireState :=
  { s with uniforms := { s.uniforms with noiseScale := v } }

/-- Getter `NodeFire.seed`. -/
def getSeed (s : NodeFireState) : ℚ := s.uniforms.seed

/-- Setter `NodeFire.seed`. -/
def setSeed (s : NodeFireState) (v : ℚ) : NodeFireState :=
  { s with uniforms := { s.uniforms with seed := v } }

/-- Getter `NodeFire.iterations` (read-only at runtime). -/
def getIterations (s : NodeFireState) : ℕ := s.uniforms.iterations

/-- Getter `NodeFire.octaves` (read-only at runtime). -/
def getOctaves (s : NodeFireState) : ℕ := s.uniforms.octaves

end NodeFire

@[simp] theorem v3add_x (a b : Vec3) : (a + b).x = a.x + b.x := rfl

@[simp] theorem v3add_y (a b : Vec3) : (a + b).y = a.y + b.y := rfl

@[simp] theorem v3add_z (a b : Vec3) : (a + b).z = a.z + b.z := rfl

theorem v3ext {a b : Vec3} (hx : a.x = b.x) (hy : a.y = b.y) (hz : a.z = b.z) :
    a = b := by
  cases a; cases b; simp_all

/-- Multiplying a vector by the scalar one is the identity. -/
theorem v3smul_one (v : Vec3) : v3smul 1 v = v :=
  v3ext (one_mul _) (one_mul _) (one_mul _)

/-- Advancing one more fixed step from `pos + d` lands on the `(c+1)`-step point. -/
theorem v3_step (pos d : Vec3) (c : ℚ) :
    pos + d + v3smul c d = pos + v3smul (c + 1) d :=
  v3ext (by simp [v3smul]; ring) (by simp [v3smul]; ring) (by simp [v3smul]; ring)

/-- The loop body shared verbatim by the GLSL `turbulence` function
(`FireShader.ts`, lines 165-177) and the TSL `createTurbulence` function
(`FireShaderTSL.ts`): `sum += abs(noise(p * freq)) * amp; freq *= lacunarity;
amp *= gain;`, run a fixed number of times.  The noise kernel is a parameter
because both kernels (ashima simplex, mx_noise_float) live outside the
repository. -/
def turbAux (noise : Vec3 → ℚ) (lac gain : ℚ) (p : Vec3) :
    ℕ → ℚ → ℚ → ℚ → ℚ
  | 0, sum, _, _ => sum
  | n + 1, sum, freq, amp =>
      turbAux noise lac gain p n (sum + |noise (v3smul freq p)| * amp) (freq * lac)
        (amp * gain)

/-- GLSL `turbulence(p)` (`FireShader.ts`): the octave loop starting from
`sum = 0, freq = 1, amp = 1`, with the octave count baked in as the `OCTAVES`
define. -/
def turbulence (noise : Vec3 → ℚ) (lac gain : ℚ) (oct : ℕ) (p : Vec3) : ℚ :=
  turbAux noise lac gain p oct 0 1 1

/-- TSL `createTurbulence(octaves)` (`FireShaderTSL.ts`, lines 115-129): the same
loop as the GLSL turbulence, with the octave count fixed when the node is built. -/
def tslTurbulence (octaves : ℕ) (noise : Vec3 → ℚ) (lac gain : ℚ) (p : Vec3) : ℚ :=
  turbAux noise lac gain p octaves 0 1 1

/-- The turbulence expression of the node backend (`NodeFireShader.ts`, line 66):
a single call `triNoise3D(animatedPos, 1.0, time)`.  The triNoise3D kernel is a
three.js TSL built-in, hence a parameter. -/
def nodeFireTurbulence (tri : Vec3 → ℚ → ℚ → ℚ) (p : Vec3) (t : ℚ) : ℚ :=
  tri p 1 t

/-- Closed form of the turbulence loop: running `n` octaves from accumulator
`sum`, frequency `freq` and amplitude `amp` adds the octave series. -/
theorem turbAux_eq (noise : Vec3 → ℚ) (lac gain : ℚ) (p : Vec3) :
    ∀ (n : ℕ) (sum freq amp : ℚ),
      turbAux noise lac gain p n sum freq amp
        = sum + ∑ i ∈ Finset.range n,
            |noise (v3smul (freq * lac ^ i) p)| * (amp * gain ^ i) := by
  intro n
  induction n with
  | zero => intro sum freq amp; simp [turbAux]
  | succ n ih =>
      intro sum freq amp
      rw [show turbAux noise lac gain p (n + 1) sum freq amp
            = turbAux noise lac gain p n (sum + |noise (v3smul freq p)| * amp)
                (freq * lac) (amp * gain) from rfl,
        ih, Finset.sum_range_succ']
      rw [Finset.sum_congr rfl (fun i (_ : i ∈ Finset.range n) => by
        rw [show freq * lac * lac ^ i = freq * lac ^ (i + 1) from by ring,
          show amp * gain * gain ^ i = amp * gain ^ (i + 1) from by ring])]
      simp only [pow_zero, mul_one]
      ring

/-- With a nonnegative gain, any run of the turbulence loop started from a
nonnegative accumulator and amplitude stays nonnegative. -/
theorem turbAux_nonneg (noise : Vec3 → ℚ) (lac gain : ℚ) (p : Vec3) (hg : 0 ≤ gain) :
    ∀ (n : ℕ) (sum freq amp : ℚ), 0 ≤ sum → 0 ≤ amp →
      0 ≤ turbAux noise lac gain p n sum freq amp := by
  intro n
  induction n with
  | zero => intro sum freq amp hs _; exact hs
  | succ n ih =>
      intro sum freq amp hs ha
      exact ih _ _ _ (add_nonneg hs (mul_nonneg (abs_nonneg _) ha)) (mul_nonneg ha hg)

/-- With a nonnegative gain the turbulence value is nonnegative. -/
theorem turbulence_nonneg (noise : Vec3 → ℚ) (lac gain : ℚ) (oct : ℕ) (p : Vec3)
    (hg : 0 ≤ gain) : 0 ≤ turbulence noise lac gain oct p :=
  turbAux_nonneg noise lac gain p hg oct 0 1 1 le_rfl zero_le_one

/-- With a nonnegative gain the TSL turbulence value is nonnegative. -/
theorem tslTurbulence_nonneg (octaves : ℕ) (noise : Vec3 → ℚ) (lac gain : ℚ)
    (p : Vec3) (hg : 0 ≤ gain) : 0 ≤ tslTurbulence octaves noise lac gain p :=
  turbAux_nonneg noise lac gain p hg octaves 0 1 1 le_rfl zero_le_one

/-- GLSL `localize(p)` (`FireShader.ts`): `(invModelMatrix * vec4(p, 1.0)).xyz`,
identical to the TSL `localize` node (`FireShaderTSL.ts`, lines 133-135). -/
def localize (inv : Mat4) (p : Vec3) : Vec3 :=
  ⟨inv.n11 * p.x + inv.n12 * p.y + inv.n13 * p.z + inv.n14,
   inv.n21 * p.x + inv.n22 * p.y + inv.n23 * p.z + inv.n24,
   inv.n31 * p.x + inv.n32 * p.y + inv.n33 * p.z + inv.n34⟩

/-- GLSL `samplerFire(p, scale)` (`FireShader.ts`, lines 179-196).  `sqrtf` is the
GPU square root, `tex` the fire texture lookup; `t`, `seed`, `mag`, `lac`, `gain`
are the ambient uniforms and `oct` the `OCTAVES` define. -/
def samplerFire (sqrtf : ℚ → ℚ) (noise : Vec3 → ℚ) (tex : ℚ → ℚ → Vec4)
    (t seed mag lac gain : ℚ) (oct : ℕ) (scale : Vec4) (p : Vec3) : Vec4 :=
  let stx := sqrtf (dotXZ p)
  let sty := p.y
  if stx ≤ 0 ∨ 1 ≤ stx ∨ sty ≤ 0 ∨ 1 ≤ sty then v4zero
  else
    let p2 : Vec3 :=
      ⟨p.x * scale.x, (p.y - (seed + t) * scale.w) * scale.y, p.z * scale.z⟩
    let sty2 := sty + sqrtf sty * mag * turbulence noise lac gain oct p2
    if sty2 ≤ 0 ∨ 1 ≤ sty2 then v4zero
    else tex stx sty2

/-- TSL `createSamplerFire(uniforms)` (`FireShaderTSL.ts`, lines 142-163).
The displacement reads the TSL built-in global `time` node (`gTime` here), not the
stored time uniform; the out-of-bounds test happens once, after the perturbation,
via `select`. -/
def tslSamplerFire (sqrtf : ℚ → ℚ) (noise : Vec3 → ℚ) (tex : ℚ → ℚ → Vec4)
    (gTime seed mag lac gain : ℚ) (scaleVec : Vec4) (p : Vec3) : Vec4 :=
  let stx := sqrtf (dotXZ p)
  let sty := p.y
  let timeOffset := (seed + gTime) * scaleVec.w
  let a2 : Vec3 :=
    ⟨p.x * scaleVec.x, (p.y - timeOffset) * scaleVec.y, p.z * scaleVec.z⟩
  let sty2 := sty + sqrtf sty * mag * tslTurbulence 3 noise lac gain a2
  if stx ≤ 0 ∨ 1 ≤ stx ∨ sty2 ≤ 0 ∨ 1 ≤ sty2 then v4zero
  else tex stx sty2

/-- Modelled from the spec wording of the Density Sampler for the TSL backend:
identical to `tslSamplerFire` except that the displacement uses the time value
stored by `update()` / the time setter, as the spec prescribes.  Used only to
compare the code against the claimed time source. -/
def tslSamplerFireStoredTime (sqrtf : ℚ → ℚ) (noise : Vec3 → ℚ)
    (tex : ℚ → ℚ → Vec4) (storedTime seed mag lac gain : ℚ) (scaleVec : Vec4)
    (p : Vec3) : Vec4 :=
  let stx := sqrtf (dotXZ p)
  let sty := p.y
  let timeOffset := (seed + storedTime) * scaleVec.w
  let a2 : Vec3 :=
    ⟨p.x * scaleVec.x, (p.y - timeOffset) * scaleVec.y, p.z * scaleVec.z⟩
  let sty2 := sty + sqrtf sty * mag * tslTurbulence 3 noise lac gain a2
  if stx ≤ 0 ∨ 1 ≤ stx ∨ sty2 ≤ 0 ∨ 1 ≤ sty2 then v4zero
  else tex stx sty2

/-- The node backend sampler `fireNode` (`NodeFireShader.ts`, lines 52-74): same
cylindrical coordinates and displacement, turbulence from a single triNoise3D
call, and an unconditional texture lookup (no bounds test). -/
def fireNode (tri : Vec3 → ℚ → ℚ → ℚ) (tex : ℚ → ℚ → Vec4) (sqrtf : ℚ → ℚ)
    (localPos : Vec3) (scale : Vec4) (mag t seed : ℚ) : Vec4 :=
  let stx := sqrtf (dotXZ localPos)
  let sty := localPos.y
  let a : Vec3 :=
    ⟨localPos.x * scale.x, (localPos.y - (seed + t) * scale.w) * scale.y,
     localPos.z * scale.z⟩
  let sty2 := sty + sqrtf sty * (mag * nodeFireTurbulence tri a t)
  tex stx sty2

/-- The ray-march loop shared by both fragment programs: each iteration advances
the ray position by the fixed step `d` and adds the sample at the new position to
the accumulator; the iteration count is the only loop control. -/
def marchAux (f : Vec3 → Vec4) (d : Vec3) : ℕ → Vec3 → Vec4 → Vec3 × Vec4
  | 0, pos, col => (pos, col)
  | n + 1, pos, col => marchAux f d n (pos + d) (col + f (pos + d))

/-- Closed form of the ray-march loop: after `n` iterations the accumulator holds
the initial value plus the sum of the samples at the first `n` step points. -/
theorem marchAux_col (f : Vec3 → Vec4) (d : Vec3) :
    ∀ (n : ℕ) (pos : Vec3) (col : Vec4),
      (marchAux f d n pos col).2
        = col + ∑ i ∈ Finset.range n, f (pos + v3smul ((i : ℚ) + 1) d) := by
  intro n
  induction n with
  | zero => intro pos col; simp [marchAux]
  | succ n ih =>
      intro pos col
      rw [show marchAux f d (n + 1) pos col
            = marchAux f d n (pos + d) (col + f (pos + d)) from rfl,
        ih, Finset.sum_range_succ']
      rw [Finset.sum_congr rfl (fun i (_ : i ∈ Finset.range n) => by
        rw [v3_step pos d ((i : ℚ) + 1)])]
      simp only [Nat.cast_add, Nat.cast_one, Nat.cast_zero, zero_add, v3smul_one]
      abel

/-- The GLSL fragment program `main` (`FireShader.ts`, lines 202-221): normalized
camera-to-fragment direction, fixed step length `0.0288 * length(scale)`, the
`ITERATIONS`-step march with the local-space adjustment `y += 0.5, xz *= 2.0`, and
the final tint/alpha assignment `col.rgb *= color; col.a = col.r`. -/
def fireMain (sqrtf : ℚ → ℚ) (noise : Vec3 → ℚ) (tex : ℚ → ℚ → Vec4) (color : Vec3)
    (t seed mag lac gain : ℚ) (invM : Mat4) (scaleV : Vec3) (noiseScaleV : Vec4)
    (iter oct : ℕ) (worldPos camPos : Vec3) : Vec4 :=
  let dirv := worldPos - camPos
  let rayDir := v3smul (1 / sqrtf (dot3 dirv dirv)) dirv
  let rayLen := (18 / 625 : ℚ) * sqrtf (dot3 scaleV scaleV)
  let res := marchAux (fun pos =>
      let lp := localize invM pos
      let lp2 : Vec3 := ⟨lp.x * 2, lp.y + 1 / 2, lp.z * 2⟩
      samplerFire sqrtf noise tex t seed mag lac gain oct noiseScaleV lp2)
    (v3smul rayLen rayDir) iter worldPos v4zero
  let col := res.2
  ⟨col.x * color.x, col.y * color.y, col.z * color.z, col.x * color.x⟩

/-- The TSL fragment node `createFireFragmentNode` (`FireShaderTSL.ts`, lines
172-201): the same march over `iterations` steps with the TSL sampler, tint
multiply and `col.w = col.x` after the tint. -/
def tslFireFragment (sqrtf : ℚ → ℚ) (noise : Vec3 → ℚ) (tex : ℚ → ℚ → Vec4)
    (color : Vec3) (gTime seed mag lac gain : ℚ) (invM : Mat4) (scaleV : Vec3)
    (noiseScaleV : Vec4) (iter : ℕ) (worldPos camPos : Vec3) : Vec4 :=
  let dirv := worldPos - camPos
  let rayDir := v3smul (1 / sqrtf (dot3 dirv dirv)) dirv
  let rayLen := (18 / 625 : ℚ) * sqrtf (dot3 scaleV scaleV)
  let res := marchAux (fun pos =>
      let lp := localize invM pos
      let lp2 : Vec3 := ⟨lp.x * 2, lp.y + 1 / 2, lp.z * 2⟩
      tslSamplerFire sqrtf noise tex gTime seed mag lac gain noiseScaleV lp2)
    (v3smul rayLen rayDir) iter worldPos v4zero
  let col := res.2
  ⟨col.x * color.x, col.y * color.y, col.z * color.z, col.x * color.x⟩

/-- The turbulence-perturbed vertical texture coordinate computed by the GLSL
sampler: `p` displaced downward in y by `(seed + time) * noiseScale.w`, scaled
componentwise by `noiseScale.xyz`, fed to the turbulence, and the perturbation
`sqrt(st.y) * magnitude * turbulence` added to `st.y = p.y`. -/
def perturbedY (sqrtf : ℚ → ℚ) (noise : Vec3 → ℚ) (t seed mag lac gain : ℚ)
    (oct : ℕ) (scale : Vec4) (p : Vec3) : ℚ :=
  p.y + sqrtf p.y * mag * turbulence noise lac gain oct
    ⟨p.x * scale.x, (p.y - (seed + t) * scale.w) * scale.y, p.z * scale.z⟩

/-- The turbulence-perturbed vertical texture coordinate computed by the TSL
sampler.  The displacement time here is the global renderer time (the TSL `time`
node), and the octave count is fixed at 3. -/
def tslPerturbedY (sqrtf : ℚ → ℚ) (noise : Vec3 → ℚ) (gTime seed mag lac gain : ℚ)
    (scaleVec : Vec4) (p : Vec3) : ℚ :=
  p.y + sqrtf p.y * mag * tslTurbulence 3 noise lac gain
    ⟨p.x * scaleVec.x, (p.y - (seed + gTime) * scaleVec.w) * scaleVec.y,
     p.z * scaleVec.z⟩

/-- The fixed world-space step vector of the ray march: length
`0.0288 * length(objectScale)` along the normalized camera-to-fragment
direction. -/
def rayStep (sqrtf : ℚ → ℚ) (scaleV : Vec3) (worldPos camPos : Vec3) : Vec3 :=
  v3smul ((18 / 625 : ℚ) * sqrtf (dot3 scaleV scaleV))
    (v3smul (1 / sqrtf (dot3 (worldPos - camPos) (worldPos - camPos)))
      (worldPos - camPos))

/-- The fixed local-space adjustment applied to every march sample:
`y += 0.5`, `xz *= 2.0`. -/
def adjustLocal (lp : Vec3) : Vec3 := ⟨lp.x * 2, lp.y + 1 / 2, lp.z * 2⟩

/-- The final tint and alpha assignment of both fragment programs:
`col.rgb *= color; col.a = col.r`. -/
def tintWith (color : Vec3) (col : Vec4) : Vec4 :=
  ⟨col.x * color.x, col.y * color.y, col.z * color.z, col.x * color.x⟩

/-- Folded form of `zero_add` for the literal `v4zero` accumulator. -/
theorem v4zero_add (v : Vec4) : v4zero + v = v := zero_add v

/-- Evaluation form of the TSL sampler in terms of its perturbed coordinate. -/
theorem tslSamplerFire_eval (sqrtf : ℚ → ℚ) (noise : Vec3 → ℚ)
    (tex : ℚ → ℚ → Vec4) (gTime seed mag lac gain : ℚ) (scaleVec : Vec4)
    (p : Vec3) :
    tslSamplerFire sqrtf noise tex gTime seed mag lac gain scaleVec p
      = if sqrtf (dotXZ p) ≤ 0 ∨ 1 ≤ sqrtf (dotXZ p)
            ∨ tslPerturbedY sqrtf noise gTime seed mag lac gain scaleVec p ≤ 0
            ∨ 1 ≤ tslPerturbedY sqrtf noise gTime seed mag lac gain scaleVec p
        then v4zero
        else tex (sqrtf (dotXZ p))
            (tslPerturbedY sqrtf noise gTime seed mag lac gain scaleVec p) := rfl

/-- Evaluation form of the spec-modelled stored-time TSL sampler. -/
theorem tslSamplerFireStoredTime_eval (sqrtf : ℚ → ℚ) (noise : Vec3 → ℚ)
    (tex : ℚ → ℚ → Vec4) (storedTime seed mag lac gain : ℚ) (scaleVec : Vec4)
    (p : Vec3) :
    tslSamplerFireStoredTime sqrtf noise tex storedTime seed mag lac gain scaleVec
        p
      = if sqrtf (dotXZ p) ≤ 0 ∨ 1 ≤ sqrtf (dotXZ p)
            ∨ tslPerturbedY sqrtf noise storedTime seed mag lac gain scaleVec p ≤ 0
            ∨ 1 ≤ tslPerturbedY sqrtf noise storedTime seed mag lac gain scaleVec p
        then v4zero
        else tex (sqrtf (dotXZ p))
            (tslPerturbedY sqrtf noise storedTime seed mag lac gain scaleVec p) :=
  rfl

/-- A concrete texture with non-default filters and wrap modes. -/
def exTexture : Texture :=
  ⟨0, TexFilter.nearest, TexFilter.nearest, TexWrap.repeatWrapping,
   TexWrap.repeatWrapping⟩

/-- A concrete `Fire` instance state whose mesh has been moved to position
`(1, 2, 3)` and scaled by `(2, 3, 4)` since the last update. -/
def exFire : FireState :=
  { mesh :=
      { position := ⟨1, 2, 3⟩
        quaternion := quatId
        scale := ⟨2, 3, 4⟩
        matrixWorld := m4id }
    timeProp := 0
    uniforms :=
      { fireTex := configureTexture exTexture
        color := ColorVal.ofHex 0xeeeeee
        time := 0
        seed := 0
        invModelMatrix := m4id
        scale := ⟨1, 1, 1⟩
        noiseScale := ⟨1, 2, 1, 3 / 10⟩
        magnitude := 13 / 10
        lacunarity := 2
        gain := 1 / 2 }
    iterations := 20
    octaves := 3 }

/-- A concrete `NodeFire` instance state with the same moved mesh. -/
def exNodeFire : NodeFireState :=
  { mesh :=
      { position := ⟨1, 2, 3⟩
        quaternion := quatId
        scale := ⟨2, 3, 4⟩
        matrixWorld := m4id }
    timeProp := 0
    uniforms :=
      { fireTex := some (configureTexture exTexture)
        color := ColorVal.ofHex 0xeeeeee
        time := 0
        seed := 0
        noiseScale := ⟨1, 2, 1, 3 / 10⟩
        magnitude := 13 / 10
        lacunarity := 2
        gain := 1 / 2
        iterations := 20
        octaves := 3 } }

/-- A concrete stand-in for the GPU square root, exact on the values used by the
concrete sampler inputs below, nonnegative everywhere and zero on nonpositive
inputs. -/
def sqrtC : ℚ → ℚ := fun x => if x = 1 / 4 then 1 / 2 else if x ≤ 0 then 0 else 1

/-- A concrete noise kernel reading the y component. -/
def noiseYC : Vec3 → ℚ := fun v => v.y

/-- A concrete all-ones texture lookup. -/
def texOneC : ℚ → ℚ → Vec4 := fun _ _ => ⟨1, 1, 1, 1⟩

/-- A concrete stand-in for the external triNoise3D kernel: the coordinate sum. -/
def triC : Vec3 → ℚ → ℚ → ℚ := fun v _ _ => v.x + v.y + v.z

/-- The fixed-speed, fixed-time slice of `triC`, as the noise kernel a claimed
octave sum over the node backend would have to use. -/
def noiseFromTriC : Vec3 → ℚ := fun v => triC v 1 0

/-- Claim C6: `update(t)` stores `t` into the time property and the time uniform;
`update()` with no argument leaves both at their previous values. -/
theorem fire_update_time_semantics :
    (∀ (s : FireState) (v : ℚ),
        (Fire.update s (some v)).timeProp = v
        ∧ (Fire.update s (some v)).uniforms.time = v)
    ∧ ∀ s : FireState,
        (Fire.update s none).timeProp = s.timeProp
        ∧ (Fire.update s none).uniforms.time = s.uniforms.time :=
  ⟨fun _ _ => ⟨rfl, rfl⟩, fun _ => ⟨rfl, rfl⟩⟩

/-- Claim C7: an instance constructed with only a texture has magnitude 1.3,
lacunarity 2.0, gain 0.5, noiseScale (1, 2, 1, 0.3), iterations 20, octaves 3 and
tint 0xeeeeee; the same defaults hold for the TSL uniform factory. -/
theorem fire_default_parameters :
    ∀ (tex : Texture) (rand : ℚ),
      (Fire.construct ⟨tex, none, none, none, none, none, none, none⟩
          rand).uniforms.magnitude = 13 / 10
      ∧ (Fire.construct ⟨tex, none, none, none, none, none, none, none⟩
          rand).uniforms.lacunarity = 2
      ∧ (Fire.construct ⟨tex, none, none, none, none, none, none, none⟩
          rand).uniforms.gain = 1 / 2
      ∧ (Fire.construct ⟨tex, none, none, none, none, none, none, none⟩
          rand).uniforms.noiseScale = ⟨1, 2, 1, 3 / 10⟩
      ∧ (Fire.construct ⟨tex, none, none, none, none, none, none, none⟩
          rand).iterations = 20
      ∧ (Fire.construct ⟨tex, none, none, none, none, none, none, none⟩
          rand).octaves = 3
      ∧ (Fire.construct ⟨tex, none, none, none, none, none, none, none⟩
          rand).uniforms.color = ColorVal.ofHex 0xeeeeee
      ∧ (createFireUniforms ⟨tex, none, none, none, none, none⟩ rand).magnitude
          = 13 / 10
      ∧ (createFireUniforms ⟨tex, none, none, none, none, none⟩ rand).lacunarity = 2
      ∧ (createFireUniforms ⟨tex, none, none, none, none, none⟩ rand).gain = 1 / 2
      ∧ (createFireUniforms ⟨tex, none, none, none, none, none⟩ rand).noiseScale
          = ⟨1, 2, 1, 3 / 10⟩
      ∧ (createFireUniforms ⟨tex, none, none, none, none, none⟩ rand).color
          = ColorVal.ofHex 0xeeeeee
      ∧ (FireTSL.construct ⟨tex, none, none, none, none, none, none, none⟩
          rand).iterations = 20 :=
  fun _ _ =>
    ⟨rfl, rfl, rfl, rfl, rfl, rfl, rfl, rfl, rfl, rfl, rfl, rfl, rfl⟩

/-- Claim C8: every settable public property round-trips through its setter and
getter: time, color (with a Color value), magnitude, lacunarity and gain on all
three classes, and noiseScale, seed and the texture on NodeFire (the texture comes
back as the same object, with its filters rewritten by the setter). -/
theorem accessor_round_trip :
    (∀ (s : FireState) (v : ℚ), Fire.getTime (Fire.setTime s v) = v)
    ∧ (∀ (s : FireState) (c : ColorVal),
        Fire.getFireColor (Fire.setFireColor s (ColorInput.fromColor c)) = c)
    ∧ (∀ (s : FireState) (v : ℚ), Fire.getMagnitude (Fire.setMagnitude s v) = v)
    ∧ (∀ (s : FireState) (v : ℚ), Fire.getLacunarity (Fire.setLacunarity s v) = v)
    ∧ (∀ (s : FireState) (v : ℚ), Fire.getGain (Fire.setGain s v) = v)
    ∧ (∀ (s : FireTSLState) (v : ℚ), FireTSL.getTime (FireTSL.setTime s v) = v)
    ∧ (∀ (s : FireTSLState) (c : ColorVal),
        FireTSL.getFireColor (FireTSL.setFireColor s (ColorInput.fromColor c)) = c)
    ∧ (∀ (s : FireTSLState) (v : ℚ),
        FireTSL.getMagnitude (FireTSL.setMagnitude s v) = v)
    ∧ (∀ (s : FireTSLState) (v : ℚ),
        FireTSL.getLacunarity (FireTSL.setLacunarity s v) = v)
    ∧ (∀ (s : FireTSLState) (v : ℚ), FireTSL.getGain (FireTSL.setGain s v) = v)
    ∧ (∀ (s : NodeFireState) (v : ℚ), NodeFire.getTime (NodeFire.setTime s v) = v)
    ∧ (∀ (s : NodeFireState) (c : ColorVal),
        NodeFire.getFireColor (NodeFire.setFireColor s (ColorInput.fromColor c)) = c)
    ∧ (∀ (s : NodeFireState) (v : ℚ),
        NodeFire.getMagnitude (NodeFire.setMagnitude s v) = v)
    ∧ (∀ (s : NodeFireState) (v : ℚ),
        NodeFire.getLacunarity (NodeFire.setLacunarity s v) = v)
    ∧ (∀ (s : NodeFireState) (v : ℚ), NodeFire.getGain (NodeFire.setGain s v) = v)
    ∧ (∀ (s : NodeFireState) (v : Vec4),
        NodeFire.getNoiseScale (NodeFire.setNoiseScale s v) = v)
    ∧ (∀ (s : NodeFireState) (v : ℚ), NodeFire.getSeed (NodeFire.setSeed s v) = v)
    ∧ ∀ (s : NodeFireState) (x : Texture),
        NodeFire.getFireTex (NodeFire.setFireTex s (some x))
            = some (configureTexture x)
        ∧ (configureTexture x).image = x.image :=
  ⟨fun _ _ => rfl, fun _ _ => rfl, fun _ _ => rfl, fun _ _ => rfl, fun _ _ => rfl,
   fun _ _ => rfl, fun _ _ => rfl, fun _ _ => rfl, fun _ _ => rfl, fun _ _ => rfl,
   fun _ _ => rfl, fun _ _ => rfl, fun _ _ => rfl, fun _ _ => rfl, fun _ _ => rfl,
   fun _ _ => rfl, fun _ _ => rfl, fun _ _ => ⟨rfl, rfl⟩⟩

/-- Claim C9: a texture assigned through the NodeFire texture setter ends up with
linear min/mag filtering and clamp-to-edge wrapping on both axes, and so does the
texture bound by the Fire constructor. -/
theorem texture_setter_configures :
    (∀ (s : NodeFireState) (x : Texture),
        (NodeFire.setFireTex s (some x)).uniforms.fireTex
          = some (configureTexture x))
    ∧ (∀ x : Texture,
        (configureTexture x).magFilter = TexFilter.linear
        ∧ (configureTexture x).minFilter = TexFilter.linear
        ∧ (configureTexture x).wrapS = TexWrap.clampToEdge
        ∧ (configureTexture x).wrapT = TexWrap.clampToEdge)
    ∧ ∀ (props : FireProps) (rand : ℚ),
        (Fire.construct props rand).uniforms.fireTex
          = configureTexture props.fireTex :=
  ⟨fun _ _ => rfl, fun _ => ⟨rfl, rfl, rfl, rfl⟩, fun _ _ => rfl⟩

/-- Claim C10: `update`, with or without a time argument, leaves every uniform
other than time, invModelMatrix and scale unchanged, on both the Fire and the
FireTSL backends. -/
theorem fire_update_preserves_other_uniforms :
    ∀ (s : FireState) (s2 : FireTSLState) (t : Option ℚ),
      ((Fire.update s t).uniforms.color = s.uniforms.color
       ∧ (Fire.update s t).uniforms.seed = s.uniforms.seed
       ∧ (Fire.update s t).uniforms.noiseScale = s.uniforms.noiseScale
       ∧ (Fire.update s t).uniforms.magnitude = s.uniforms.magnitude
       ∧ (Fire.update s t).uniforms.lacunarity = s.uniforms.lacunarity
       ∧ (Fire.update s t).uniforms.gain = s.uniforms.gain
       ∧ (Fire.update s t).uniforms.fireTex = s.uniforms.fireTex)
      ∧ ((FireTSL.update s2 t).uniforms.color = s2.uniforms.color
       ∧ (FireTSL.update s2 t).uniforms.seed = s2.uniforms.seed
       ∧ (FireTSL.update s2 t).uniforms.noiseScale = s2.uniforms.noiseScale
       ∧ (FireTSL.update s2 t).uniforms.magnitude = s2.uniforms.magnitude
       ∧ (FireTSL.update s2 t).uniforms.lacunarity = s2.uniforms.lacunarity
       ∧ (FireTSL.update s2 t).uniforms.gain = s2.uniforms.gain
       ∧ (FireTSL.update s2 t).uniforms.fireTex = s2.uniforms.fireTex) := by
  intro s s2 t
  cases t <;>
    exact ⟨⟨rfl, rfl, rfl, rfl, rfl, rfl, rfl⟩, ⟨rfl, rfl, rfl, rfl, rfl, rfl, rfl⟩⟩

/-- Claim C1 (amended): on the Fire and FireTSL backends, every `update` call,
with or without a time argument, recomputes the world matrix from the current
position/quaternion/scale, stores a genuine inverse of it in the invModelMatrix
uniform (two-sided product with the world matrix is the identity whenever the
world matrix is invertible) and copies the mesh scale into the scale uniform.
The NodeFire backend update assigns no transform uniform at all: its uniform
record, which has no invModelMatrix or scale entry, changes only in its time
field. -/
theorem fire_update_refreshes_transform :
    (∀ (s : FireState) (t : Option ℚ),
        (Fire.update s t).uniforms.scale = s.mesh.scale
        ∧ (Fire.update s t).mesh.matrixWorld
            = m4compose s.mesh.position s.mesh.quaternion s.mesh.scale
        ∧ (m4det (m4compose s.mesh.position s.mesh.quaternion s.mesh.scale) ≠ 0 →
            m4mul (Fire.update s t).uniforms.invModelMatrix
                (Fire.update s t).mesh.matrixWorld = m4id
            ∧ m4mul (Fire.update s t).mesh.matrixWorld
                (Fire.update s t).uniforms.invModelMatrix = m4id))
    ∧ (∀ (s : FireTSLState) (t : Option ℚ),
        (FireTSL.update s t).uniforms.scale = s.mesh.scale
        ∧ (FireTSL.update s t).mesh.matrixWorld
            = m4compose s.mesh.position s.mesh.quaternion s.mesh.scale
        ∧ (m4det (m4compose s.mesh.position s.mesh.quaternion s.mesh.scale) ≠ 0 →
            m4mul (FireTSL.update s t).uniforms.invModelMatrix
                (FireTSL.update s t).mesh.matrixWorld = m4id
            ∧ m4mul (FireTSL.update s t).mesh.matrixWorld
                (FireTSL.update s t).uniforms.invModelMatrix = m4id))
    ∧ ∀ (s : NodeFireState) (t : Option ℚ),
        (NodeFire.update s t).uniforms
          = { s.uniforms with time := t.getD s.uniforms.time } := by
  refine ⟨fun s t => ?_, fun s t => ?_, fun s t => ?_⟩
  · cases t <;>
      exact ⟨rfl, rfl, fun h => ⟨m4invert_mul_self _ h, m4mul_invert_self _ h⟩⟩
  · cases t <;>
      exact ⟨rfl, rfl, fun h => ⟨m4invert_mul_self _ h, m4mul_invert_self _ h⟩⟩
  · cases t <;> rfl

/-- Witness for C1: on the concrete moved instance `exFire` (position (1,2,3),
scale (2,3,4)), after `update(1)` the invModelMatrix uniform times the fresh
world matrix is the identity. -/
theorem fire_update_refreshes_transform_witness :
    m4det (m4compose exFire.mesh.position exFire.mesh.quaternion exFire.mesh.scale)
        ≠ 0
    ∧ m4mul (Fire.update exFire (some 1)).uniforms.invModelMatrix
        (Fire.update exFire (some 1)).mesh.matrixWorld = m4id := by
  have hdet : m4det
      (m4compose exFire.mesh.position exFire.mesh.quaternion exFire.mesh.scale)
        ≠ 0 := by
    norm_num [exFire, m4compose, m4det, quatId]
  exact ⟨hdet, ((fire_update_refreshes_transform.1 exFire (some 1)).2.2 hdet).1⟩

/-- Counterexample for C1 as stated: on the concrete moved NodeFire instance
`exNodeFire` (mesh scale (2,3,4), position (1,2,3)), `update(1)` changes nothing
in the uniform record except the time field, so no uniform receives the inverse
world matrix or the scale vector; the NodeFire uniform record has no such
entries to begin with. -/
theorem nodeFire_update_no_transform_uniforms_cex :
    (NodeFire.update exNodeFire (some 1)).uniforms
        = { exNodeFire.uniforms with time := 1 }
    ∧ (NodeFire.update exNodeFire (some 1)).mesh.scale = ⟨2, 3, 4⟩ :=
  ⟨rfl, rfl⟩

/-- Claim C4 (amended): the GLSL turbulence and the TSL createTurbulence both
equal the octave sum of `abs(noise(p * frequency)) * amplitude` with frequency
starting at 1 and multiplied by the lacunarity after each term and amplitude
starting at 1 and multiplied by the gain after each term.  The node backend does
not implement this sum (see the counterexample). -/
theorem turbulence_octave_sum :
    (∀ (noise : Vec3 → ℚ) (lac gain : ℚ) (oct : ℕ) (p : Vec3),
        turbulence noise lac gain oct p
          = ∑ i ∈ Finset.range oct, |noise (v3smul (lac ^ i) p)| * gain ^ i)
    ∧ ∀ (octaves : ℕ) (noise : Vec3 → ℚ) (lac gain : ℚ) (p : Vec3),
        tslTurbulence octaves noise lac gain p
          = ∑ i ∈ Finset.range octaves, |noise (v3smul (lac ^ i) p)| * gain ^ i := by
  constructor
  · intro noise lac gain oct p
    rw [turbulence, turbAux_eq]
    simp
  · intro octaves noise lac gain p
    rw [tslTurbulence, turbAux_eq]
    simp

/-- Counterexample for C4 as stated: the turbulence expression of the node
backend is a single triNoise3D call that ignores lacunarity, gain and octaves.
With the concrete kernel `triC`, at `p = (1,1,1)`, lacunarity 2, gain 1/2 and
3 octaves, the node turbulence value is 3 while the claimed octave sum over the
same kernel is 9. -/
theorem nodeFire_turbulence_cex :
    nodeFireTurbulence triC ⟨1, 1, 1⟩ 0
      ≠ ∑ i ∈ Finset.range 3,
          |noiseFromTriC (v3smul ((2 : ℚ) ^ i) ⟨1, 1, 1⟩)| * (1 / 2 : ℚ) ^ i := by
  have h0 : noiseFromTriC (v3smul ((2 : ℚ) ^ 0) ⟨1, 1, 1⟩) = 3 := by
    norm_num [noiseFromTriC, triC, v3smul]
  have h1 : noiseFromTriC (v3smul ((2 : ℚ) ^ 1) ⟨1, 1, 1⟩) = 6 := by
    norm_num [noiseFromTriC, triC, v3smul]
  have h2 : noiseFromTriC (v3smul ((2 : ℚ) ^ 2) ⟨1, 1, 1⟩) = 12 := by
    norm_num [noiseFromTriC, triC, v3smul]
  rw [Finset.sum_range_succ, Finset.sum_range_succ, Finset.sum_range_succ,
    Finset.sum_range_zero, h0, h1, h2,
    abs_of_nonneg (by norm_num : (0 : ℚ) ≤ 3),
    abs_of_nonneg (by norm_num : (0 : ℚ) ≤ 6),
    abs_of_nonneg (by norm_num : (0 : ℚ) ≤ 12)]
  norm_num [nodeFireTurbulence, triC]

/-- Claim C2: the GLSL and TSL Density Samplers return the all-zero sample
whenever the initial texture coordinate `st = (sqrt(p.x^2 + p.z^2), p.y)` has a
component outside (0,1), and whenever the turbulence-perturbed `st.y` leaves
(0,1); otherwise they return the texture sample at the final `st`.  For the TSL
sampler, whose single bounds test runs after the perturbation, this needs the
square root to be nonnegative and zero on nonpositive inputs, and nonnegative
magnitude and gain (the documented parameter ranges). -/
theorem samplerFire_out_of_bounds_zero :
    (∀ (sqrtf : ℚ → ℚ) (noise : Vec3 → ℚ) (tex : ℚ → ℚ → Vec4)
        (t seed mag lac gain : ℚ) (oct : ℕ) (scale : Vec4) (p : Vec3),
        (sqrtf (dotXZ p) ≤ 0 ∨ 1 ≤ sqrtf (dotXZ p) ∨ p.y ≤ 0 ∨ 1 ≤ p.y →
            samplerFire sqrtf noise tex t seed mag lac gain oct scale p = v4zero)
        ∧ (perturbedY sqrtf noise t seed mag lac gain oct scale p ≤ 0
              ∨ 1 ≤ perturbedY sqrtf noise t seed mag lac gain oct scale p →
            samplerFire sqrtf noise tex t seed mag lac gain oct scale p = v4zero)
        ∧ (0 < sqrtf (dotXZ p) → sqrtf (dotXZ p) < 1 → 0 < p.y → p.y < 1 →
            0 < perturbedY sqrtf noise t seed mag lac gain oct scale p →
            perturbedY sqrtf noise t seed mag lac gain oct scale p < 1 →
            samplerFire sqrtf noise tex t seed mag lac gain oct scale p
              = tex (sqrtf (dotXZ p))
                  (perturbedY sqrtf noise t seed mag lac gain oct scale p)))
    ∧ ∀ (sqrtf : ℚ → ℚ) (noise : Vec3 → ℚ) (tex : ℚ → ℚ → Vec4)
        (gTime seed mag lac gain : ℚ) (scaleVec : Vec4) (p : Vec3),
        (∀ x : ℚ, 0 ≤ sqrtf x) → (∀ x : ℚ, x ≤ 0 → sqrtf x = 0) →
        0 ≤ mag → 0 ≤ gain →
        (sqrtf (dotXZ p) ≤ 0 ∨ 1 ≤ sqrtf (dotXZ p) ∨ p.y ≤ 0 ∨ 1 ≤ p.y →
            tslSamplerFire sqrtf noise tex gTime seed mag lac gain scaleVec p
              = v4zero)
        ∧ (tslPerturbedY sqrtf noise gTime seed mag lac gain scaleVec p ≤ 0
              ∨ 1 ≤ tslPerturbedY sqrtf noise gTime seed mag lac gain scaleVec p →
            tslSamplerFire sqrtf noise tex gTime seed mag lac gain scaleVec p
              = v4zero)
        ∧ (0 < sqrtf (dotXZ p) → sqrtf (dotXZ p) < 1 →
            0 < tslPerturbedY sqrtf noise gTime seed mag lac gain scaleVec p →
            tslPerturbedY sqrtf noise gTime seed mag lac gain scaleVec p < 1 →
            tslSamplerFire sqrtf noise tex gTime seed mag lac gain scaleVec p
              = tex (sqrtf (dotXZ p))
                  (tslPerturbedY sqrtf noise gTime seed mag lac gain scaleVec p)) := by
  constructor
  · intro sqrtf noise tex t seed mag lac gain oct scale p
    refine ⟨fun h => ?_, fun h => ?_, fun h1 h2 h3 h4 h5 h6 => ?_⟩
    · simp only [samplerFire]
      rw [if_pos h]
    · simp only [perturbedY] at h
      simp only [samplerFire]
      split_ifs <;> rfl
    · simp only [perturbedY] at h5 h6
      simp only [samplerFire, perturbedY]
      split_ifs with hA hB
      · exfalso
        rcases hA with h | h | h | h
        exacts [absurd h (not_le.mpr h1), absurd h (not_le.mpr h2),
          absurd h (not_le.mpr h3), absurd h (not_le.mpr h4)]
      · exfalso
        rcases hB with h | h
        exacts [absurd h (not_le.mpr h5), absurd h (not_le.mpr h6)]
      · rfl
  · intro sqrtf noise tex gTime seed mag lac gain scaleVec p hs hs0 hm hg
    refine ⟨fun h => ?_, fun h => ?_, fun h1 h2 h5 h6 => ?_⟩
    · rcases h with h | h | h | h
      · simp only [tslSamplerFire]
        rw [if_pos (Or.inl h)]
      · simp only [tslSamplerFire]
        rw [if_pos (Or.inr (Or.inl h))]
      · have hy2 : tslPerturbedY sqrtf noise gTime seed mag lac gain scaleVec p
            ≤ 0 := by
          simp only [tslPerturbedY]
          rw [hs0 p.y h]
          simpa using h
        simp only [tslPerturbedY] at hy2
        simp only [tslSamplerFire]
        rw [if_pos (Or.inr (Or.inr (Or.inl hy2)))]
      · have hT : 0 ≤ tslTurbulence 3 noise lac gain
            ⟨p.x * scaleVec.x, (p.y - (seed + gTime) * scaleVec.w) * scaleVec.y,
             p.z * scaleVec.z⟩ := tslTurbulence_nonneg 3 noise lac gain _ hg
        have hprod : 0 ≤ sqrtf p.y * mag * tslTurbulence 3 noise lac gain
            ⟨p.x * scaleVec.x, (p.y - (seed + gTime) * scaleVec.w) * scaleVec.y,
             p.z * scaleVec.z⟩ := mul_nonneg (mul_nonneg (hs p.y) hm) hT
        have hy2 : 1 ≤ p.y + sqrtf p.y * mag * tslTurbulence 3 noise lac gain
            ⟨p.x * scaleVec.x, (p.y - (seed + gTime) * scaleVec.w) * scaleVec.y,
             p.z * scaleVec.z⟩ := by linarith
        simp only [tslSamplerFire]
        rw [if_pos (Or.inr (Or.inr (Or.inr hy2)))]
    · simp only [tslPerturbedY] at h
      simp only [tslSamplerFire]
      split_ifs with hA
      · rfl
      · exact absurd (h.elim (fun hh => Or.inr (Or.inr (Or.inl hh)))
          (fun hh => Or.inr (Or.inr (Or.inr hh)))) hA
    · simp only [tslPerturbedY] at h5 h6
      simp only [tslSamplerFire]
      split_ifs with hA
      · exfalso
        rcases hA with h | h | h | h
        exacts [absurd h (not_le.mpr h1), absurd h (not_le.mpr h2),
          absurd h (not_le.mpr h5), absurd h (not_le.mpr h6)]
      · rfl

/-- Witness for C2: with the concrete square root `sqrtC` (nonnegative, zero on
nonpositive inputs), magnitude 1 and gain 0, the TSL sampler rejects the
position `(3/10, 2, 2/5)`, whose initial vertical coordinate 2 lies outside
(0,1). -/
theorem samplerFire_out_of_bounds_zero_witness :
    (∀ x : ℚ, 0 ≤ sqrtC x)
    ∧ (∀ x : ℚ, x ≤ 0 → sqrtC x = 0)
    ∧ (0 : ℚ) ≤ 1
    ∧ (1 : ℚ) ≤ (Vec3.mk (3 / 10) 2 (2 / 5)).y
    ∧ tslSamplerFire sqrtC noiseYC texOneC 0 0 1 1 0 ⟨1, 1, 1, 1⟩
        ⟨3 / 10, 2, 2 / 5⟩ = v4zero := by
  have hs : ∀ x : ℚ, 0 ≤ sqrtC x := by
    intro x; unfold sqrtC; split_ifs <;> norm_num
  have hs0 : ∀ x : ℚ, x ≤ 0 → sqrtC x = 0 := by
    intro x hx
    unfold sqrtC
    split_ifs with h1
    · exfalso; rw [h1] at hx; norm_num at hx
    · rfl
  have hy : (1 : ℚ) ≤ (Vec3.mk (3 / 10) 2 (2 / 5)).y := by norm_num
  exact ⟨hs, hs0, by norm_num, hy,
    (samplerFire_out_of_bounds_zero.2 sqrtC noiseYC texOneC 0 0 1 1 0 ⟨1, 1, 1, 1⟩
        ⟨3 / 10, 2, 2 / 5⟩ hs hs0 (by norm_num) le_rfl).1
      (Or.inr (Or.inr (Or.inr hy)))⟩

/-- Claim C3: both fragment programs run exactly `iterations` ray-march steps
with no early exit: the output is the tint applied to the sum, over exactly the
iteration count, of the Density Sampler evaluated at the adjusted localization
of `worldPos + (i+1) * step`, where the step is the fixed vector of length
`0.0288 * |objectScale|` along the normalized camera-to-fragment direction.  The
step count and step positions never depend on the accumulated color. -/
theorem ray_march_fixed_steps :
    ∀ (sqrtf : ℚ → ℚ) (noise : Vec3 → ℚ) (tex : ℚ → ℚ → Vec4) (color : Vec3)
      (t seed mag lac gain : ℚ) (invM : Mat4) (scaleV : Vec3) (noiseScaleV : Vec4)
      (iter oct : ℕ) (worldPos camPos : Vec3),
      fireMain sqrtf noise tex color t seed mag lac gain invM scaleV noiseScaleV
          iter oct worldPos camPos
        = tintWith color
            (∑ i ∈ Finset.range iter,
              samplerFire sqrtf noise tex t seed mag lac gain oct noiseScaleV
                (adjustLocal (localize invM
                  (worldPos + v3smul ((i : ℚ) + 1)
                    (rayStep sqrtf scaleV worldPos camPos)))))
      ∧ tslFireFragment sqrtf noise tex color t seed mag lac gain invM scaleV
          noiseScaleV iter worldPos camPos
        = tintWith color
            (∑ i ∈ Finset.range iter,
              tslSamplerFire sqrtf noise tex t seed mag lac gain noiseScaleV
                (adjustLocal (localize invM
                  (worldPos + v3smul ((i : ℚ) + 1)
                    (rayStep sqrtf scaleV worldPos camPos))))) := by
  intro sqrtf noise tex color t seed mag lac gain invM scaleV noiseScaleV iter oct
    worldPos camPos
  constructor
  · simp only [fireMain, tintWith, adjustLocal, rayStep]
    rw [marchAux_col, v4zero_add]
  · simp only [tslFireFragment, tintWith, adjustLocal, rayStep]
    rw [marchAux_col, v4zero_add]

/-- Claim C5 (amended): on every in-bounds position, each sampler displaces the
position downward in y by `(seed + time) * noiseScale.w`, scales it componentwise
by `noiseScale.xyz`, computes the turbulence of the result and perturbs `st.y` by
`sqrt(st.y) * magnitude * turbulence` before the texture lookup — but the time in
the displacement is the stored uniform only for the GLSL sampler; the TSL sampler
reads the global renderer time node, and the node sampler uses the time argument
wired to its material uniform snapshot. -/
theorem sampler_displacement_pipeline :
    (∀ (sqrtf : ℚ → ℚ) (noise : Vec3 → ℚ) (tex : ℚ → ℚ → Vec4)
        (t seed mag lac gain : ℚ) (oct : ℕ) (ns : Vec4) (p : Vec3),
        0 < sqrtf (dotXZ p) → sqrtf (dotXZ p) < 1 → 0 < p.y → p.y < 1 →
          samplerFire sqrtf noise tex t seed mag lac gain oct ns p
            = if perturbedY sqrtf noise t seed mag lac gain oct ns p ≤ 0
                  ∨ 1 ≤ perturbedY sqrtf noise t seed mag lac gain oct ns p
              then v4zero
              else tex (sqrtf (dotXZ p))
                  (perturbedY sqrtf noise t seed mag lac gain oct ns p))
    ∧ (∀ (sqrtf : ℚ → ℚ) (noise : Vec3 → ℚ) (tex : ℚ → ℚ → Vec4)
        (gTime seed mag lac gain : ℚ) (ns : Vec4) (p : Vec3),
        0 < sqrtf (dotXZ p) → sqrtf (dotXZ p) < 1 →
          tslSamplerFire sqrtf noise tex gTime seed mag lac gain ns p
            = if tslPerturbedY sqrtf noise gTime seed mag lac gain ns p ≤ 0
                  ∨ 1 ≤ tslPerturbedY sqrtf noise gTime seed mag lac gain ns p
              then v4zero
              else tex (sqrtf (dotXZ p))
                  (tslPerturbedY sqrtf noise gTime seed mag lac gain ns p))
    ∧ ∀ (tri : Vec3 → ℚ → ℚ → ℚ) (tex : ℚ → ℚ → Vec4) (sqrtf : ℚ → ℚ)
        (localPos : Vec3) (scale : Vec4) (mag t seed : ℚ),
        fireNode tri tex sqrtf localPos scale mag t seed
          = tex (sqrtf (dotXZ localPos))
              (localPos.y + sqrtf localPos.y
                * (mag * nodeFireTurbulence tri
                    ⟨localPos.x * scale.x,
                     (localPos.y - (seed + t) * scale.w) * scale.y,
                     localPos.z * scale.z⟩ t)) := by
  refine ⟨?_, ?_, ?_⟩
  · intro sqrtf noise tex t seed mag lac gain oct ns p h1 h2 h3 h4
    simp only [samplerFire, perturbedY]
    rw [if_neg ?_]
    intro hA
    rcases hA with h | h | h | h
    exacts [absurd h (not_le.mpr h1), absurd h (not_le.mpr h2),
      absurd h (not_le.mpr h3), absurd h (not_le.mpr h4)]
  · intro sqrtf noise tex gTime seed mag lac gain ns p h1 h2
    simp only [tslSamplerFire, tslPerturbedY]
    by_cases hB : p.y + sqrtf p.y * mag * tslTurbulence 3 noise lac gain
        ⟨p.x * ns.x, (p.y - (seed + gTime) * ns.w) * ns.y, p.z * ns.z⟩ ≤ 0
        ∨ 1 ≤ p.y + sqrtf p.y * mag * tslTurbulence 3 noise lac gain
        ⟨p.x * ns.x, (p.y - (seed + gTime) * ns.w) * ns.y, p.z * ns.z⟩
    · rw [if_pos hB,
        if_pos (hB.elim (fun hh => Or.inr (Or.inr (Or.inl hh)))
          (fun hh => Or.inr (Or.inr (Or.inr hh))))]
    · rw [if_neg hB, if_neg ?_]
      intro hA
      rcases hA with h | h | h | h
      exacts [absurd h (not_le.mpr h1), absurd h (not_le.mpr h2),
        absurd (Or.inl h) hB, absurd (Or.inr h) hB]
  · intro tri tex sqrtf localPos scale mag t seed
    rfl

/-- Witness for C5: for the concrete in-bounds position `(3/10, 1/4, 2/5)` with
magnitude 0, the GLSL sampler returns the texture sample at the unperturbed
coordinates, as the amended claim predicts. -/
theorem sampler_displacement_pipeline_witness :
    0 < sqrtC (dotXZ ⟨3 / 10, 1 / 4, 2 / 5⟩)
    ∧ sqrtC (dotXZ ⟨3 / 10, 1 / 4, 2 / 5⟩) < 1
    ∧ 0 < (Vec3.mk (3 / 10) (1 / 4) (2 / 5)).y
    ∧ (Vec3.mk (3 / 10) (1 / 4) (2 / 5)).y < 1
    ∧ samplerFire sqrtC noiseYC texOneC 0 0 0 1 0 3 ⟨1, 1, 1, 1⟩
        ⟨3 / 10, 1 / 4, 2 / 5⟩ = ⟨1, 1, 1, 1⟩ := by
  have hsq : sqrtC (dotXZ ⟨3 / 10, 1 / 4, 2 / 5⟩) = 1 / 2 := by
    norm_num [sqrtC, dotXZ]
  have h1 : 0 < sqrtC (dotXZ ⟨3 / 10, 1 / 4, 2 / 5⟩) := by rw [hsq]; norm_num
  have h2 : sqrtC (dotXZ ⟨3 / 10, 1 / 4, 2 / 5⟩) < 1 := by rw [hsq]; norm_num
  have h3 : 0 < (Vec3.mk (3 / 10) (1 / 4) (2 / 5)).y := by norm_num
  have h4 : (Vec3.mk (3 / 10) (1 / 4) (2 / 5)).y < 1 := by norm_num
  have hp : perturbedY sqrtC noiseYC 0 0 0 1 0 3 ⟨1, 1, 1, 1⟩
      ⟨3 / 10, 1 / 4, 2 / 5⟩ = 1 / 4 := by
    simp [perturbedY]
  refine ⟨h1, h2, h3, h4, ?_⟩
  rw [sampler_displacement_pipeline.1 sqrtC noiseYC texOneC 0 0 0 1 0 3
      ⟨1, 1, 1, 1⟩ ⟨3 / 10, 1 / 4, 2 / 5⟩ h1 h2 h3 h4, hp,
    if_neg (by norm_num), hsq]
  rfl

/-- Counterexample for C5 as stated: the TSL sampler ignores the stored time
uniform.  With the concrete square root, noise kernel and texture below, a fire
whose stored time is 5 while the global renderer clock reads 0 samples the
texture (all-ones) where the claimed stored-time pipeline rejects the sample
(all zeros). -/
theorem tsl_sampler_global_time_cex :
    tslSamplerFire sqrtC noiseYC texOneC 0 0 1 1 0 ⟨1, 1, 1, 1⟩
        ⟨3 / 10, 1 / 4, 2 / 5⟩
      ≠ tslSamplerFireStoredTime sqrtC noiseYC texOneC 5 0 1 1 0 ⟨1, 1, 1, 1⟩
          ⟨3 / 10, 1 / 4, 2 / 5⟩ := by
  have hdx : sqrtC (dotXZ ⟨3 / 10, 1 / 4, 2 / 5⟩) = 1 / 2 := by
    norm_num [sqrtC, dotXZ]
  have hpL : tslPerturbedY sqrtC noiseYC 0 0 1 1 0 ⟨1, 1, 1, 1⟩
      ⟨3 / 10, 1 / 4, 2 / 5⟩ = 3 / 8 := by
    norm_num [tslPerturbedY, tslTurbulence, turbAux, noiseYC, v3smul, sqrtC]
    rw [abs_of_nonneg (by norm_num : (0 : ℚ) ≤ 1 / 4)]
    norm_num
  have hpR : tslPerturbedY sqrtC noiseYC 5 0 1 1 0 ⟨1, 1, 1, 1⟩
      ⟨3 / 10, 1 / 4, 2 / 5⟩ = 21 / 8 := by
    norm_num [tslPerturbedY, tslTurbulence, turbAux, noiseYC, v3smul, sqrtC]
    rw [abs_of_nonneg (by norm_num : (0 : ℚ) ≤ 19 / 4)]
    norm_num
  rw [tslSamplerFire_eval, tslSamplerFireStoredTime_eval, hdx, hpL, hpR,
    if_neg (by norm_num), if_pos (Or.inr (Or.inr (Or.inr (by norm_num))))]
  simp [texOneC, v4zero]

end ThreeFire
